import Mathlib

/-!
Shallow embedding of the turmite simulation engine from `src/lib.rs`
(wasm-langton-ant-rs).  Pure Rust functions become Lean functions; the
mutable `Turmite` struct becomes explicit state passing; fallible grid
indexing (`Vec` indexing, which panics when out of range in Rust) returns
`Option`.  Draw calls issued to the canvas are collected in a list.
Randomness (`rand::thread_rng`) is modelled by passing the drawn values
(table choice index, initial state bit, initial color bit) as parameters.
-/

namespace Ant

/-- Embeds `enum Rotate` from `src/lib.rs`. -/
inductive Rotate
  | Clockwise
  | CounterClockwise
  | Noop
  | Uturn
deriving DecidableEq

/-- Embeds `struct Decision { rotate, color, state }`. -/
structure Decision where
  rotate : Rotate
  color : Bool
  state : Bool
deriving DecidableEq

/-- Embeds `struct DecisionTable { name, table: [Decision; 4] }`.
The fixed-size array becomes a list; every catalog table has length 4. -/
structure DecisionTable where
  name : String
  table : List Decision
deriving DecidableEq

namespace DecisionTable

open Rotate

/-- The `"fibonacci"` entry of the catalog in `DecisionTable::random`. -/
def fibonacci : DecisionTable :=
  ⟨"fibonacci",
    [⟨CounterClockwise, true, true⟩, ⟨CounterClockwise, true, true⟩,
     ⟨Clockwise, true, true⟩, ⟨Noop, false, false⟩]⟩

/-- The `"langton"` entry of the catalog. -/
def langton : DecisionTable :=
  ⟨"langton",
    [⟨Clockwise, true, false⟩, ⟨CounterClockwise, false, false⟩,
     ⟨Clockwise, true, false⟩, ⟨CounterClockwise, false, false⟩]⟩

/-- The `"chaotic_one"` entry of the catalog. -/
def chaotic_one : DecisionTable :=
  ⟨"chaotic_one",
    [⟨Clockwise, true, false⟩, ⟨Clockwise, true, true⟩,
     ⟨Noop, false, false⟩, ⟨Noop, false, true⟩]⟩

/-- The `"chaotic_two"` entry of the catalog. -/
def chaotic_two : DecisionTable :=
  ⟨"chaotic_two",
    [⟨Clockwise, true, true⟩, ⟨CounterClockwise, false, true⟩,
     ⟨Noop, true, false⟩, ⟨Noop, false, true⟩]⟩

/-- The `"chaotic_three"` entry of the catalog. -/
def chaotic_three : DecisionTable :=
  ⟨"chaotic_three",
    [⟨CounterClockwise, true, true⟩, ⟨CounterClockwise, false, true⟩,
     ⟨Clockwise, true, true⟩, ⟨CounterClockwise, false, false⟩]⟩

/-- The `"chaotic_four"` entry of the catalog. -/
def chaotic_four : DecisionTable :=
  ⟨"chaotic_four",
    [⟨CounterClockwise, true, true⟩, ⟨CounterClockwise, false, true⟩,
     ⟨Noop, true, false⟩, ⟨Noop, true, true⟩]⟩

/-- The `"coral"` entry of the catalog. -/
def coral : DecisionTable :=
  ⟨"coral",
    [⟨Clockwise, true, true⟩, ⟨CounterClockwise, true, true⟩,
     ⟨Clockwise, true, true⟩, ⟨CounterClockwise, false, false⟩]⟩

/-- The `"square_one"` entry of the catalog. -/
def square_one : DecisionTable :=
  ⟨"square_one",
    [⟨CounterClockwise, true, false⟩, ⟨Clockwise, true, true⟩,
     ⟨Clockwise, false, false⟩, ⟨CounterClockwise, false, true⟩]⟩

/-- The `"square_two"` entry of the catalog. -/
def square_two : DecisionTable :=
  ⟨"square_two",
    [⟨Clockwise, false, true⟩, ⟨CounterClockwise, false, false⟩,
     ⟨Noop, true, false⟩, ⟨Uturn, true, true⟩]⟩

/-- The `"counter_one"` entry of the catalog. -/
def counter_one : DecisionTable :=
  ⟨"counter_one",
    [⟨Noop, false, true⟩, ⟨Uturn, false, true⟩,
     ⟨Clockwise, true, true⟩, ⟨Noop, false, true⟩]⟩

/-- The `"counter_two"` entry of the catalog. -/
def counter_two : DecisionTable :=
  ⟨"counter_two",
    [⟨Clockwise, true, true⟩, ⟨Noop, false, true⟩,
     ⟨Noop, false, false⟩, ⟨CounterClockwise, true, true⟩]⟩

/-- The `"spiral_one"` entry of the catalog. -/
def spiral_one : DecisionTable :=
  ⟨"spiral_one",
    [⟨Noop, true, true⟩, ⟨CounterClockwise, true, false⟩,
     ⟨Clockwise, true, true⟩, ⟨Noop, false, false⟩]⟩

/-- The `"spiral_two"` entry of the catalog. -/
def spiral_two : DecisionTable :=
  ⟨"spiral_two",
    [⟨CounterClockwise, true, false⟩, ⟨Clockwise, false, true⟩,
     ⟨Clockwise, true, false⟩, ⟨CounterClockwise, false, true⟩]⟩

/-- The `"spiral_three"` entry of the catalog. -/
def spiral_three : DecisionTable :=
  ⟨"spiral_three",
    [⟨Uturn, true, false⟩, ⟨Noop, false, true⟩,
     ⟨CounterClockwise, false, false⟩, ⟨Clockwise, false, true⟩]⟩

/-- The `"ladder"` entry of the catalog. -/
def ladder : DecisionTable :=
  ⟨"ladder",
    [⟨Noop, false, true⟩, ⟨Uturn, true, true⟩,
     ⟨CounterClockwise, true, false⟩, ⟨Noop, true, true⟩]⟩

/-- The `"dixie"` entry of the catalog. -/
def dixie : DecisionTable :=
  ⟨"dixie",
    [⟨Clockwise, false, true⟩, ⟨CounterClockwise, false, false⟩,
     ⟨Uturn, true, true⟩, ⟨Clockwise, false, false⟩]⟩

/-- The hardcoded `tables` vector built inside `DecisionTable::random`. -/
def tables : List DecisionTable :=
  [fibonacci, langton, chaotic_one, chaotic_two, chaotic_three, chaotic_four,
   coral, square_one, square_two, counter_one, counter_two,
   spiral_one, spiral_two, spiral_three, ladder, dixie]

/-- Embeds `DecisionTable::random`: `tables.choose(&mut rand::thread_rng())`
picks one element of the fixed list uniformly at random.  The random draw is
modelled by an index `i`; `choose` reduces it modulo the list length, so every
`i` yields a table of the catalog. -/
def random (i : Nat) : Option DecisionTable :=
  tables.get? (i % tables.length)

/-- Embeds `DecisionTable::decide`: `self.table[x * 2 + y].clone()`.
Rust array indexing panics out of range, hence `Option`. -/
def decide (t : DecisionTable) (x y : Nat) : Option Decision :=
  t.table.get? (x * 2 + y)

end DecisionTable

/-- Embeds `enum Orientation`. -/
inductive Orientation
  | Up
  | Right
  | Down
  | Left
deriving DecidableEq

namespace Orientation

/-- Embeds `Orientation::uturn`. -/
def uturn : Orientation → Orientation
  | Up => Down
  | Right => Left
  | Down => Up
  | Left => Right

/-- Embeds `Orientation::clockwise`. -/
def clockwise : Orientation → Orientation
  | Up => Right
  | Right => Down
  | Down => Left
  | Left => Up

/-- Embeds `Orientation::counter_clockwise`. -/
def counter_clockwise : Orientation → Orientation
  | Up => Left
  | Left => Down
  | Down => Right
  | Right => Up

end Orientation

/-- `const EMPTY_COLOR: &str = "rgb(255, 255, 255)"`. -/
def EMPTY_COLOR : String := "rgb(255, 255, 255)"

/-- `const FILL_COLOR: &str = "rgb(0, 0, 0)"`. -/
def FILL_COLOR : String := "rgb(0, 0, 0)"

/-- `const ANT_COLOR: &str = "rgb(200, 0, 0)"`. -/
def ANT_COLOR : String := "rgb(200, 0, 0)"

/-- One `ctx.fill_rect` call together with the fill color set just before it:
the observable effect of `Turmite::render` on the canvas. -/
structure Draw where
  color : String
  px : Nat
  py : Nat
  size : Nat
deriving DecidableEq

/-- Embeds `struct Turmite`.  `field: Vec<Vec<bool>>` becomes a list of lists,
indexed `field[x][y]` exactly as in the source. -/
structure Turmite where
  x : Nat
  y : Nat
  orientation : Orientation
  behavior : DecisionTable
  state : Bool
  width : Nat
  height : Nat
  field : List (List Bool)
  pixel_ratio : Nat
  is_active : Bool
deriving DecidableEq

/-- Rust `field[x][y]` read; `none` models the index-out-of-bounds panic. -/
def getCell (f : List (List Bool)) (x y : Nat) : Option Bool :=
  (f.get? x).bind fun row => row.get? y

/-- Rust `field[x][y] = v` write; `none` models the out-of-bounds panic. -/
def setCell (f : List (List Bool)) (x y : Nat) (v : Bool) : Option (List (List Bool)) :=
  match f.get? x with
  | none => none
  | some row =>
    if y < row.length then some (f.set x (row.set y v)) else none

namespace Turmite

/-- Embeds `Turmite::cur_color`: `self.field[self.x][self.y]`. -/
def cur_color (t : Turmite) : Option Bool :=
  getCell t.field t.x t.y

/-- Embeds `Turmite::set_color`: `self.field[self.x][self.y] = v`. -/
def set_color (t : Turmite) (v : Bool) : Option Turmite :=
  (setCell t.field t.x t.y v).map fun f => { t with field := f }

/-- Embeds `Turmite::move_by`: the new coordinates are computed in `i32`;
a negative coordinate is clamped to 0 and deactivates the turmite. -/
def move_by (t : Turmite) (dx dy : Int) : Turmite :=
  let new_x : Int := (t.x : Int) + dx
  let active_x : Bool := if new_x < 0 then false else t.is_active
  let new_x : Int := if new_x < 0 then 0 else new_x
  let new_y : Int := (t.y : Int) + dy
  let active_y : Bool := if new_y < 0 then false else active_x
  let new_y : Int := if new_y < 0 then 0 else new_y
  { t with x := new_x.toNat, y := new_y.toNat, is_active := active_y }

/-- Embeds `Turmite::rotate`. -/
def rotate (t : Turmite) (rotation : Rotate) : Turmite :=
  { t with orientation :=
      match rotation with
      | Rotate.Noop => t.orientation
      | Rotate.Clockwise => t.orientation.clockwise
      | Rotate.CounterClockwise => t.orientation.counter_clockwise
      | Rotate.Uturn => t.orientation.uturn }

/-- Embeds `Turmite::tick_state`: reads `(state, cur_color)` as bits, looks up
the decision, then assigns the new state, rotates, and recolors the cell. -/
def tick_state (t : Turmite) : Option Turmite :=
  (t.cur_color).bind fun c =>
    (t.behavior.decide (if t.state then 1 else 0) (if c then 1 else 0)).bind fun d =>
      set_color (rotate { t with state := d.state } d.rotate) d.color

/-- Embeds `Turmite::tick_pos`: moves one cell in the current heading if the
position is strictly inside the grid, otherwise deactivates. -/
def tick_pos (t : Turmite) : Turmite :=
  if t.x < t.width ∧ t.y < t.height then
    match t.orientation with
    | Orientation.Up => t.move_by 0 (-1)
    | Orientation.Right => t.move_by 1 0
    | Orientation.Down => t.move_by 0 1
    | Orientation.Left => t.move_by (-1) 0
  else { t with is_active := false }

/-- Embeds `Turmite::render`: emits one `fill_rect` at the scaled position,
but only while the turmite is active. -/
def render (t : Turmite) (color : String) : List Draw :=
  if t.is_active then
    [⟨color, t.x * t.pixel_ratio, t.y * t.pixel_ratio, t.pixel_ratio⟩]
  else []

/-- Embeds `Turmite::render_self`. -/
def render_self (t : Turmite) : List Draw :=
  t.render ANT_COLOR

/-- Embeds `Turmite::render_cell`: reads the current cell color to choose the
fill color (fallible grid read, as in the source). -/
def render_cell (t : Turmite) : Option (List Draw) :=
  (t.cur_color).map fun c => t.render (if c then FILL_COLOR else EMPTY_COLOR)

/-- Embeds `Turmite::is_active`. -/
def is_active? (t : Turmite) : Bool :=
  t.is_active

/-- Embeds `Turmite::tick`: when active, runs `tick_state`, renders the
(re-colored) current cell, moves, then renders the agent marker; when
inactive it does nothing.  Returns the new state and the draw calls issued. -/
def tick (t : Turmite) : Option (Turmite × List Draw) :=
  if t.is_active then
    (tick_state t).bind fun t1 =>
      (render_cell t1).bind fun d1 =>
        some (tick_pos t1, d1 ++ render_self (tick_pos t1))
  else some (t, [])

/-- Embeds `Turmite::new`.  The three random draws of the constructor
(`rng.gen()` for the state, `DecisionTable::random()` for the behavior and
`rng.gen()` for the initial color) are passed in as `behavior`, `state`,
`color0`.  Writing the initial color at the center is fallible exactly where
the source's `set_color` indexing is. -/
def new (canvas_width canvas_height pixel_ratio : Nat)
    (behavior : DecisionTable) (state : Bool) (color0 : Bool) : Option Turmite :=
  let width := canvas_width / pixel_ratio
  let height := canvas_height / pixel_ratio
  let field := List.replicate width (List.replicate height false)
  let t : Turmite :=
    { x := width / 2, y := height / 2, orientation := Orientation.Right,
      is_active := true, behavior := behavior, state := state, field := field,
      width := width, height := height, pixel_ratio := pixel_ratio }
  t.set_color color0

/-- Runs `tick` `n` times, threading the state and ignoring draw calls;
`none` as soon as one tick hits an out-of-range grid access. -/
def iterate_tick : Nat → Turmite → Option Turmite
  | 0, t => some t
  | n + 1, t => (tick t).bind fun p => iterate_tick n p.1

/-- `t` is reachable from `t0` by some number of successful ticks. -/
def Reachable (t0 t : Turmite) : Prop :=
  ∃ n, iterate_tick n t0 = some t

/-- The cell-grid characters of the `fmt::Display` impl: the field is
flattened outer index (`x`) first, each cell printed as '1' or '0'. -/
def field_chars (t : Turmite) : List Char :=
  (t.field.map fun row => row.map fun cell => if cell then '1' else '0').flatten

/-- The cell-grid portion of the `fmt::Display` output as a string. -/
def field_string (t : Turmite) : String :=
  ⟨field_chars t⟩

/-- Embeds `impl fmt::Display for Turmite` (the `debugDump` text):
`"Turmite \x7b width: {}, height: {} \x7d\n{}"` applied to width, height and
the flattened field. -/
def display (t : Turmite) : String :=
  "Turmite \x7b width: " ++ toString t.width ++ ", height: " ++
    toString t.height ++ " \x7d\n" ++ field_string t

/-- The grid invariant: the field has `width` rows, each of length `height`. -/
def GridWF (t : Turmite) : Prop :=
  t.field.map List.length = List.replicate t.width t.height

/-- The turmite produced by `new 2 1 1 chaotic_one true false`: a 2×1 grid,
start at `(1, 0)` heading `Right`. -/
def edge0 : Turmite :=
  { x := 1, y := 0, orientation := Orientation.Right,
    behavior := DecisionTable.chaotic_one, state := true, width := 2,
    height := 1, field := [[false], [false]], pixel_ratio := 1,
    is_active := true }

/-- The state after one tick of `edge0`: position `(2, 0)`, one past the last
valid column, with the turmite still active. -/
def edge1 : Turmite :=
  { x := 2, y := 0, orientation := Orientation.Right,
    behavior := DecisionTable.chaotic_one, state := false, width := 2,
    height := 1, field := [[false], [false]], pixel_ratio := 1,
    is_active := true }

/-- The turmite produced by `new 2 2 1 fibonacci true false`: a 2×2 grid,
start at `(1, 1)` heading `Right`. -/
def square0 : Turmite :=
  { x := 1, y := 1, orientation := Orientation.Right,
    behavior := DecisionTable.fibonacci, state := true, width := 2,
    height := 2, field := [[false, false], [false, false]], pixel_ratio := 1,
    is_active := true }

/-- An active turmite at `(0, 0)` heading `Up` whose cell is colored, under
the `langton` table: its next tick rotates it to `Left` and then clamps. -/
def clamp0 : Turmite :=
  { x := 0, y := 0, orientation := Orientation.Up,
    behavior := DecisionTable.langton, state := false, width := 2,
    height := 2, field := [[true, false], [false, false]], pixel_ratio := 1,
    is_active := true }

/-- The state after the clamping tick of `clamp0`: still at `(0, 0)`, cell
recolored to false, heading `Left`, now inactive. -/
def clamp1 : Turmite :=
  { x := 0, y := 0, orientation := Orientation.Left,
    behavior := DecisionTable.langton, state := false, width := 2,
    height := 2, field := [[false, false], [false, false]], pixel_ratio := 1,
    is_active := false }

/-- An active turmite at `(0, 1)` heading `Left`, about to clamp. -/
def leftEdge : Turmite :=
  { x := 0, y := 1, orientation := Orientation.Left,
    behavior := DecisionTable.langton, state := false, width := 2,
    height := 2, field := [[false, false], [false, false]], pixel_ratio := 1,
    is_active := true }

/-- An inactive turmite. -/
def stopped : Turmite :=
  { x := 0, y := 1, orientation := Orientation.Left,
    behavior := DecisionTable.langton, state := false, width := 2,
    height := 2, field := [[true, false], [false, true]], pixel_ratio := 1,
    is_active := false }

end Turmite

/-! ### Helper lemmas -/

/-- Setting an index to the value it already holds leaves the list unchanged. -/
lemma set_of_get? {α : Type} {l : List α} {i : Nat} {a : α}
    (h : l.get? i = some a) : l.set i a = l := by
  induction l generalizing i with
  | nil => simp at h
  | cons hd tl ih =>
    cases i with
    | zero => simp at h; simp [h]
    | succ n =>
      simp only [List.get?_cons_succ] at h
      simp [ih h]

/-- Characterization of a successful `setCell`. -/
lemma setCell_eq_some {f f' : List (List Bool)} {x y : Nat} {v : Bool} :
    setCell f x y v = some f' ↔
      ∃ row, f.get? x = some row ∧ y < row.length ∧ f' = f.set x (row.set y v) := by
  unfold setCell
  cases hr : f.get? x with
  | none => simp
  | some row =>
    by_cases hy : y < row.length
    · simp [hy, eq_comm]
    · simp [hy]

/-- A successful `setCell` leaves the row lengths intact. -/
lemma setCell_map_length {f f' : List (List Bool)} {x y : Nat} {v : Bool}
    (h : setCell f x y v = some f') :
    f'.map List.length = f.map List.length := by
  obtain ⟨row, hr, hy, rfl⟩ := setCell_eq_some.mp h
  rw [List.map_set]
  simp only [List.length_set]
  exact set_of_get? (by rw [List.get?_map, hr]; rfl)

/-- A successful `setCell` makes the written cell readable with the new value. -/
lemma getCell_setCell_same {f f' : List (List Bool)} {x y : Nat} {v : Bool}
    (h : setCell f x y v = some f') : getCell f' x y = some v := by
  obtain ⟨row, hr, hy, rfl⟩ := setCell_eq_some.mp h
  have hx : x < f.length := (List.get?_eq_some.mp hr).1
  unfold getCell
  rw [List.get?_eq_getElem?, List.getElem?_set_self (by simpa using hx)]
  simp only [Option.some_bind]
  rw [List.get?_eq_getElem?, List.getElem?_set_self (by simpa using hy)]

/-- A readable cell is writable. -/
lemma setCell_isSome_of_getCell {f : List (List Bool)} {x y : Nat} {b : Bool}
    (v : Bool) (h : getCell f x y = some b) : ∃ f', setCell f x y v = some f' := by
  unfold getCell at h
  obtain ⟨row, hr, hy⟩ := Option.bind_eq_some.mp h
  have hylen : y < row.length := (List.get?_eq_some.mp hy).1
  exact ⟨_, setCell_eq_some.mpr ⟨row, hr, hylen, rfl⟩⟩

namespace Turmite

/-- Characterization of a successful `set_color`. -/
lemma set_color_eq_some {t t' : Turmite} {v : Bool} :
    set_color t v = some t' ↔
      ∃ f, setCell t.field t.x t.y v = some f ∧ t' = { t with field := f } := by
  unfold set_color
  rw [Option.map_eq_some']
  exact exists_congr fun f => and_congr_right fun _ => eq_comm

/-- `move_by` touches only `x`, `y` and `is_active`. -/
lemma move_by_proj (t : Turmite) (dx dy : Int) :
    (t.move_by dx dy).orientation = t.orientation ∧
    (t.move_by dx dy).behavior = t.behavior ∧
    (t.move_by dx dy).state = t.state ∧
    (t.move_by dx dy).width = t.width ∧
    (t.move_by dx dy).height = t.height ∧
    (t.move_by dx dy).field = t.field ∧
    (t.move_by dx dy).pixel_ratio = t.pixel_ratio :=
  ⟨rfl, rfl, rfl, rfl, rfl, rfl, rfl⟩

/-- `tick_pos` touches only `x`, `y` and `is_active`. -/
lemma tick_pos_proj (t : Turmite) :
    (tick_pos t).orientation = t.orientation ∧
    (tick_pos t).behavior = t.behavior ∧
    (tick_pos t).state = t.state ∧
    (tick_pos t).width = t.width ∧
    (tick_pos t).height = t.height ∧
    (tick_pos t).field = t.field ∧
    (tick_pos t).pixel_ratio = t.pixel_ratio := by
  obtain ⟨tx, ty, tor, tb, ts, tw, th, tf, tp, ta⟩ := t
  by_cases hb : tx < tw ∧ ty < th <;> cases tor <;>
    simp [tick_pos, move_by, hb]

/-- `rotate` touches only the orientation. -/
lemma rotate_proj (t : Turmite) (r : Rotate) :
    (rotate t r).x = t.x ∧ (rotate t r).y = t.y ∧
    (rotate t r).behavior = t.behavior ∧ (rotate t r).state = t.state ∧
    (rotate t r).width = t.width ∧ (rotate t r).height = t.height ∧
    (rotate t r).field = t.field ∧ (rotate t r).pixel_ratio = t.pixel_ratio ∧
    (rotate t r).is_active = t.is_active :=
  ⟨rfl, rfl, rfl, rfl, rfl, rfl, rfl, rfl, rfl⟩

/-- A tick of an inactive turmite does nothing and draws nothing. -/
lemma tick_of_inactive {t : Turmite} (h : t.is_active = false) :
    tick t = some (t, []) := by
  unfold tick
  rw [h]
  rfl

/-- A successful `tick_state` keeps everything but the internal state bit,
the orientation and one grid cell; in particular the grid shape, the
position, the activity flag and the dimensions survive. -/
lemma tick_state_proj {t t' : Turmite} (h : tick_state t = some t') :
    t'.x = t.x ∧ t'.y = t.y ∧ t'.width = t.width ∧ t'.height = t.height ∧
    t'.is_active = t.is_active ∧ t'.behavior = t.behavior ∧
    t'.pixel_ratio = t.pixel_ratio ∧
    t'.field.map List.length = t.field.map List.length := by
  unfold tick_state at h
  obtain ⟨c, hc, h⟩ := Option.bind_eq_some.mp h
  obtain ⟨d, hd, h⟩ := Option.bind_eq_some.mp h
  obtain ⟨f, hf, rfl⟩ := set_color_eq_some.mp h
  exact ⟨rfl, rfl, rfl, rfl, rfl, rfl, rfl, setCell_map_length hf⟩

/-- Unfolding an active `tick`. -/
lemma tick_eq_of_active {t : Turmite} (ha : t.is_active = true) :
    tick t = (tick_state t).bind fun t1 =>
      (render_cell t1).bind fun d1 =>
        some (tick_pos t1, d1 ++ render_self (tick_pos t1)) := by
  unfold tick
  rw [ha]
  rfl

/-- Inversion of a successful active `tick`. -/
lemma tick_eq_some_active {t t' : Turmite} {ds : List Draw}
    (ha : t.is_active = true) (h : tick t = some (t', ds)) :
    ∃ t1 d1, tick_state t = some t1 ∧ render_cell t1 = some d1 ∧
      t' = tick_pos t1 ∧ ds = d1 ++ render_self (tick_pos t1) := by
  rw [tick_eq_of_active ha] at h
  obtain ⟨t1, h1, h⟩ := Option.bind_eq_some.mp h
  obtain ⟨d1, h2, h⟩ := Option.bind_eq_some.mp h
  have h3 := Option.some.inj h
  exact ⟨t1, d1, h1, h2, (congrArg Prod.fst h3).symm, (congrArg Prod.snd h3).symm⟩

/-- A successful `tick` preserves the dimensions and the grid shape. -/
lemma tick_shape {t t' : Turmite} {ds : List Draw} (h : tick t = some (t', ds)) :
    t'.width = t.width ∧ t'.height = t.height ∧
    t'.field.map List.length = t.field.map List.length := by
  by_cases ha : t.is_active = true
  · obtain ⟨t1, d1, h1, -, rfl, -⟩ := tick_eq_some_active ha h
    obtain ⟨-, -, hw, hh, -, -, -, hf⟩ := tick_state_proj h1
    obtain ⟨-, -, -, hw2, hh2, hf2, -⟩ := tick_pos_proj t1
    exact ⟨hw2.trans hw, hh2.trans hh, (congrArg (List.map List.length) hf2).trans hf⟩
  · have ha' : t.is_active = false := by
      cases hv : t.is_active
      · rfl
      · exact absurd hv ha
    rw [tick_of_inactive ha'] at h
    injection Option.some.inj h with h4 h5
    subst h4
    exact ⟨rfl, rfl, rfl⟩

/-- After `tick_pos`, the position stays within the inclusive bounds
`x ≤ width`, `y ≤ height` when it was within before. -/
lemma tick_pos_bound (t : Turmite) (hx : t.x ≤ t.width) (hy : t.y ≤ t.height) :
    (tick_pos t).x ≤ t.width ∧ (tick_pos t).y ≤ t.height := by
  obtain ⟨tx, ty, tor, tb, ts, tw, th, tf, tp, ta⟩ := t
  simp only at hx hy
  by_cases hb : tx < tw ∧ ty < th
  · cases tor <;> simp [tick_pos, move_by, hb] <;> split_ifs <;> omega
  · simp [tick_pos, hb]
    omega

/-- A successful `tick` preserves the inclusive position bounds. -/
lemma tick_bound {t t' : Turmite} {ds : List Draw} (h : tick t = some (t', ds))
    (hx : t.x ≤ t.width) (hy : t.y ≤ t.height) :
    t'.x ≤ t'.width ∧ t'.y ≤ t'.height := by
  obtain ⟨hw, hh, -⟩ := tick_shape h
  rw [hw, hh]
  by_cases ha : t.is_active = true
  · obtain ⟨t1, d1, h1, -, rfl, -⟩ := tick_eq_some_active ha h
    obtain ⟨hx1, hy1, hw1, hh1, -, -, -, -⟩ := tick_state_proj h1
    have hb := tick_pos_bound t1
      (by rw [hx1, hw1]; exact hx) (by rw [hy1, hh1]; exact hy)
    rw [hw1, hh1] at hb
    exact hb
  · have ha' : t.is_active = false := by
      cases hv : t.is_active
      · rfl
      · exact absurd hv ha
    rw [tick_of_inactive ha'] at h
    injection Option.some.inj h with h4 h5
    subst h4
    exact ⟨hx, hy⟩

/-- Iterating `tick` from an inactive turmite never changes it. -/
lemma iterate_tick_of_inactive {t : Turmite} (h : t.is_active = false) :
    ∀ n, iterate_tick n t = some t := by
  intro n
  induction n with
  | zero => rfl
  | succ n ih =>
    unfold iterate_tick
    rw [tick_of_inactive h]
    exact ih

/-- Induction along `iterate_tick` for a predicate preserved by `tick`. -/
lemma iterate_tick_inv {P : Turmite → Prop}
    (step : ∀ t t' ds, tick t = some (t', ds) → P t → P t') :
    ∀ n t0 t, iterate_tick n t0 = some t → P t0 → P t := by
  intro n
  induction n with
  | zero =>
    intro t0 t h hp
    exact (Option.some.inj h) ▸ hp
  | succ n ih =>
    intro t0 t h hp
    unfold iterate_tick at h
    obtain ⟨⟨t1, ds⟩, h1, h2⟩ := Option.bind_eq_some.mp h
    exact ih t1 t h2 (step t0 t1 ds h1 hp)

/-- What a successful `Turmite::new` produces. -/
lemma new_spec {cw ch pr : Nat} {b : DecisionTable} {s c : Bool} {t0 : Turmite}
    (h : Turmite.new cw ch pr b s c = some t0) :
    t0.width = cw / pr ∧ t0.height = ch / pr ∧
    t0.x = t0.width / 2 ∧ t0.y = t0.height / 2 ∧
    t0.orientation = Orientation.Right ∧ t0.state = s ∧ t0.behavior = b ∧
    t0.is_active = true ∧ t0.pixel_ratio = pr ∧
    GridWF t0 ∧ t0.cur_color = some c ∧
    t0.x ≤ t0.width ∧ t0.y ≤ t0.height := by
  unfold Turmite.new at h
  obtain ⟨f, hf, rfl⟩ := set_color_eq_some.mp h
  refine ⟨rfl, rfl, rfl, rfl, rfl, rfl, rfl, rfl, rfl, ?_, ?_, ?_, ?_⟩
  · show f.map List.length = _
    rw [setCell_map_length hf]
    simp
  · exact getCell_setCell_same hf
  · exact Nat.div_le_self _ _
  · exact Nat.div_le_self _ _

/-- `tick` preserves the grid invariant. -/
lemma tick_gridWF {t t' : Turmite} {ds : List Draw}
    (h : tick t = some (t', ds)) (hwf : GridWF t) : GridWF t' := by
  obtain ⟨hw, hh, hf⟩ := tick_shape h
  unfold GridWF
  rw [hw, hh, hf]
  exact hwf

/-- Every state reachable from a successfully constructed turmite satisfies
the grid invariant and the inclusive position bounds. -/
lemma reachable_spec {cw ch pr : Nat} {b : DecisionTable} {s c : Bool}
    {t0 t : Turmite} (h0 : Turmite.new cw ch pr b s c = some t0)
    (hr : Reachable t0 t) :
    GridWF t ∧ t.x ≤ t.width ∧ t.y ≤ t.height := by
  obtain ⟨n, hn⟩ := hr
  have base := new_spec h0
  have step : ∀ t1 t2 ds, tick t1 = some (t2, ds) →
      (GridWF t1 ∧ t1.x ≤ t1.width ∧ t1.y ≤ t1.height) →
      (GridWF t2 ∧ t2.x ≤ t2.width ∧ t2.y ≤ t2.height) := by
    intro t1 t2 ds h12 hp
    exact ⟨tick_gridWF h12 hp.1, tick_bound h12 hp.2.1 hp.2.2⟩
  exact iterate_tick_inv step n t0 t hn
    ⟨base.2.2.2.2.2.2.2.2.2.1, base.2.2.2.2.2.2.2.2.2.2.2⟩

/-- Under the grid invariant, the flattened cell dump has `width * height`
characters. -/
lemma field_chars_length {t : Turmite} (hwf : GridWF t) :
    (field_chars t).length = t.width * t.height := by
  unfold field_chars
  rw [List.length_flatten, List.map_map]
  have hc : (List.length ∘ List.map fun cell : Bool => if cell then '1' else '0') =
      fun l : List Bool => l.length := by
    funext r
    simp
  rw [hc]
  show (t.field.map List.length).sum = _
  rw [hwf, List.sum_replicate, smul_eq_mul]

/-- Every character of the cell dump is '0' or '1'. -/
lemma field_chars_mem {t : Turmite} :
    ∀ a ∈ field_chars t, a = '0' ∨ a = '1' := by
  intro a ha
  unfold field_chars at ha
  rw [List.mem_flatten] at ha
  obtain ⟨l, hl, hal⟩ := ha
  rw [List.mem_map] at hl
  obtain ⟨row, -, rfl⟩ := hl
  rw [List.mem_map] at hal
  obtain ⟨cell, -, rfl⟩ := hal
  cases cell
  · exact Or.inl rfl
  · exact Or.inr rfl

/-- Flattening a list of rows of uniform length `h`: position `x * h + y`
holds the image of cell `(x, y)`. -/
lemma flatten_uniform_get {α β : Type} (g : α → β) :
    ∀ (f : List (List α)) (w h x y : Nat),
      f.map List.length = List.replicate w h → y < h →
      ((f.map (List.map g)).flatten).get? (x * h + y) =
        ((f.get? x).bind fun row => row.get? y).map g := by
  intro f
  induction f with
  | nil =>
    intro w h x y hf hy
    simp
  | cons r tl ih =>
    intro w h x y hf hy
    cases w with
    | zero => simp at hf
    | succ w' =>
      rw [List.replicate_succ, List.map_cons] at hf
      injection hf with hr htl
      cases x with
      | zero =>
        simp only [List.map_cons, List.flatten_cons, Nat.zero_mul, Nat.zero_add]
        rw [List.get?_append (by rw [List.length_map, hr]; exact hy)]
        simp [List.get?_map]
      | succ x' =>
        simp only [List.map_cons, List.flatten_cons]
        have hlen : (List.map g r).length = h := by rw [List.length_map, hr]
        have hge : (List.map g r).length ≤ (x' + 1) * h + y := by
          rw [hlen, Nat.succ_mul]
          omega
        rw [List.get?_append_right hge]
        have hidx : (x' + 1) * h + y - (List.map g r).length = x' * h + y := by
          rw [hlen, Nat.succ_mul]
          omega
        rw [hidx, ih w' h x' y htl hy]
        simp

end Turmite

/-- Every catalog table stores exactly 4 decisions. -/
lemma tables_table_length : ∀ tbl ∈ DecisionTable.tables, tbl.table.length = 4 := by
  decide

/-! ### Claims -/

/-- Claim C6: for every orientation, applying `clockwise` four times is the
identity, `uturn` is an involution, and `clockwise` / `counter_clockwise`
are mutual inverses — the orientation algebra is the cyclic group of
order 4. -/
theorem orientation_cyclic_group :
    ∀ o : Orientation,
      o.clockwise.clockwise.clockwise.clockwise = o ∧
      o.uturn.uturn = o ∧
      o.clockwise.counter_clockwise = o ∧
      o.counter_clockwise.clockwise = o := by
  intro o
  cases o <;> exact ⟨rfl, rfl, rfl, rfl⟩

/-- Witness for the orientation algebra at `Up`. -/
theorem orientation_cyclic_group_witness :
    Orientation.Up.clockwise.clockwise.clockwise.clockwise = Orientation.Up ∧
    Orientation.Up.uturn.uturn = Orientation.Up ∧
    Orientation.Up.clockwise.counter_clockwise = Orientation.Up ∧
    Orientation.Up.counter_clockwise.clockwise = Orientation.Up :=
  orientation_cyclic_group Orientation.Up

/-- Claim C2 counterexample: the hardcoded catalog does not contain 15
tables — it contains 16. -/
theorem tables_not_fifteen : DecisionTable.tables.length ≠ 15 := by
  decide

/-- Claim C2 (amended): the catalog holds exactly 16 tables whose
identifiers are exactly the listed ones, and the random selection always
returns a member of this fixed list. -/
theorem tables_catalog :
    DecisionTable.tables.length = 16 ∧
    DecisionTable.tables.map DecisionTable.name =
      ["fibonacci", "langton", "chaotic_one", "chaotic_two", "chaotic_three",
       "chaotic_four", "coral", "square_one", "square_two", "counter_one",
       "counter_two", "spiral_one", "spiral_two", "spiral_three", "ladder",
       "dixie"] ∧
    ∀ i : Nat, ∃ tbl, DecisionTable.random i = some tbl ∧
      tbl ∈ DecisionTable.tables := by
  refine ⟨rfl, by decide, ?_⟩
  intro i
  have hi : i % DecisionTable.tables.length < DecisionTable.tables.length :=
    Nat.mod_lt _ (by decide)
  unfold DecisionTable.random
  rw [List.get?_eq_get hi]
  exact ⟨_, rfl, List.get_mem _ _ hi⟩

/-- Witness for the catalog theorem: the random draw at index 0 succeeds. -/
theorem tables_catalog_witness : (DecisionTable.random 0).isSome = true := by
  obtain ⟨tbl, h, -⟩ := tables_catalog.2.2 0
  rw [h]
  rfl

/-- Claim C7: for every catalog table and bit inputs, `decide` returns the
entry at index `stateBit*2 + colorBit`, that index is inside the 4-entry
table, and the four bit pairs map bijectively onto the indices 0..3. -/
theorem decide_bijective_lookup :
    ∀ tbl ∈ DecisionTable.tables, ∀ s c : Nat, s ≤ 1 → c ≤ 1 →
      (DecisionTable.decide tbl s c = tbl.table.get? (s * 2 + c) ∧
       s * 2 + c < tbl.table.length ∧
       (DecisionTable.decide tbl s c).isSome = true) ∧
      (∀ u v : Nat, u ≤ 1 → v ≤ 1 →
        (s * 2 + c = u * 2 + v ↔ s = u ∧ c = v)) ∧
      (∀ i : Nat, i < 4 → ∃ u v : Nat, u ≤ 1 ∧ v ≤ 1 ∧ u * 2 + v = i) := by
  intro tbl htbl s c hs hc
  have hlen : tbl.table.length = 4 := tables_table_length tbl htbl
  refine ⟨⟨rfl, by omega, ?_⟩, ?_, ?_⟩
  · unfold DecisionTable.decide
    rw [List.get?_eq_get (by omega)]
    rfl
  · intro u v hu hv
    omega
  · intro i hi
    interval_cases i
    · exact ⟨0, 0, by omega, by omega, rfl⟩
    · exact ⟨0, 1, by omega, by omega, rfl⟩
    · exact ⟨1, 0, by omega, by omega, rfl⟩
    · exact ⟨1, 1, by omega, by omega, rfl⟩

/-- Witness for the `decide` lookup at `fibonacci`, bits `(1, 0)`. -/
theorem decide_bijective_lookup_witness :
    DecisionTable.decide DecisionTable.fibonacci 1 0 =
      DecisionTable.fibonacci.table.get? (1 * 2 + 0) :=
  ((decide_bijective_lookup DecisionTable.fibonacci (by decide) 1 0
    (by omega) (by omega)).1).1

/-- Claim C4: `Inactive` is terminal — a tick of an inactive turmite
returns the very same turmite (no grid cell, no field changes), emits no
draw call, and iterating `tick` any number of times changes nothing. -/
theorem inactive_terminal :
    ∀ t : Turmite, t.is_active = false →
      Turmite.tick t = some (t, []) ∧
      ∀ n, Turmite.iterate_tick n t = some t := by
  intro t h
  exact ⟨Turmite.tick_of_inactive h, Turmite.iterate_tick_of_inactive h⟩

/-- Witness: a tick of the inactive `stopped` turmite is a no-op. -/
theorem inactive_terminal_witness :
    Turmite.tick Turmite.stopped = some (Turmite.stopped, []) :=
  (inactive_terminal Turmite.stopped rfl).1

/-- Claim C1 (code bug): from `new 1 1 1 chaotic_one true false` the first
tick succeeds and leaves the turmite active at `x = width = 1`; the second
tick then reaches the out-of-range branch of the grid read in `tick_state`
(in Rust, `self.field[self.x]` panics), so tick does perform an
out-of-range grid access on a reachable state. -/
theorem tick_out_of_range_reachable :
    ((Turmite.new 1 1 1 DecisionTable.chaotic_one true false).bind
        Turmite.tick).map (fun p => (p.1.x, p.1.width, p.1.is_active)) =
      some (1, 1, true) ∧
    (((Turmite.new 1 1 1 DecisionTable.chaotic_one true false).bind
        Turmite.tick).bind fun p => Turmite.tick p.1) = none := by
  exact ⟨by decide, by decide⟩

/-- Claim C10 counterexample: after one tick from `edge0` the turmite is at
`x = width` and still reports active, but the following tick does not
inactivate it — it hits the out-of-range grid read instead. -/
theorem upper_bound_tick_faults_cex :
    Turmite.new 2 1 1 DecisionTable.chaotic_one true false =
      some Turmite.edge0 ∧
    (Turmite.tick Turmite.edge0).map Prod.fst = some Turmite.edge1 ∧
    Turmite.edge1.x = Turmite.edge1.width ∧
    Turmite.edge1.is_active = true ∧
    Turmite.tick Turmite.edge1 = none := by
  exact ⟨by decide, by decide, rfl, rfl, by decide⟩

/-- Claim C10 (amended): every state reachable from a successfully created
turmite satisfies `x ≤ width` and `y ≤ height`; a state with `x = width`
(one past the last valid index) and `isActive` still true is reachable; on
the tick after that, the grid read is out of range (the tick faults) rather
than inactivating the turmite. -/
theorem reachable_bounds_inclusive :
    (∀ (cw ch pr : Nat) (b : DecisionTable) (s c : Bool) (t0 t : Turmite),
      Turmite.new cw ch pr b s c = some t0 → Turmite.Reachable t0 t →
      t.x ≤ t.width ∧ t.y ≤ t.height) ∧
    (Turmite.new 2 1 1 DecisionTable.chaotic_one true false =
        some Turmite.edge0 ∧
      Turmite.Reachable Turmite.edge0 Turmite.edge1 ∧
      Turmite.edge1.x = Turmite.edge1.width ∧
      Turmite.edge1.is_active = true ∧
      Turmite.tick Turmite.edge1 = none) := by
  constructor
  · intro cw ch pr b s c t0 t h0 hr
    exact (Turmite.reachable_spec h0 hr).2
  · exact ⟨by decide, ⟨1, by decide⟩, rfl, rfl, by decide⟩

/-- Witness for the inclusive bounds at the reachable state `edge1`. -/
theorem reachable_bounds_inclusive_witness :
    Turmite.edge1.x ≤ Turmite.edge1.width ∧
    Turmite.edge1.y ≤ Turmite.edge1.height :=
  reachable_bounds_inclusive.1 2 1 1 DecisionTable.chaotic_one true false
    Turmite.edge0 Turmite.edge1 (by decide) ⟨1, by decide⟩

/-- Claim C3: an active turmite whose pending move would go negative
(heading `Left` at `x = 0` or `Up` at `y = 0`) is clamped to 0 by the move
step, keeps its position, becomes inactive, and stays inactive (and
unchanged) under every further tick. -/
theorem clamp_to_zero_inactivates :
    ∀ t : Turmite, t.is_active = true →
      (t.orientation = Orientation.Left ∧ t.x = 0) ∨
        (t.orientation = Orientation.Up ∧ t.y = 0) →
      Turmite.tick_pos t = { t with is_active := false } ∧
      (Turmite.tick_pos t).x = t.x ∧ (Turmite.tick_pos t).y = t.y ∧
      (Turmite.tick_pos t).is_active = false ∧
      ∀ n, Turmite.iterate_tick n (Turmite.tick_pos t) =
        some (Turmite.tick_pos t) := by
  intro t ha hd
  have hmain : Turmite.tick_pos t = { t with is_active := false } := by
    obtain ⟨tx, ty, tor, tb, ts, tw, th, tf, tp, ta⟩ := t
    rcases hd with ⟨ho, hx⟩ | ⟨ho, hy⟩
    · simp only at ho hx ha
      subst ho hx ha
      by_cases hb : (0:Nat) < tw ∧ ty < th
      · simp [Turmite.tick_pos, Turmite.move_by, hb]
        split_ifs <;> omega
      · simp [Turmite.tick_pos, hb]
    · simp only at ho hy ha
      subst ho hy ha
      by_cases hb : tx < tw ∧ (0:Nat) < th
      · simp [Turmite.tick_pos, Turmite.move_by, hb]
        split_ifs <;> omega
      · simp [Turmite.tick_pos, hb]
  refine ⟨hmain, by rw [hmain], by rw [hmain], by rw [hmain], ?_⟩
  rw [hmain]
  exact Turmite.iterate_tick_of_inactive rfl

/-- Witness: the clamp at `leftEdge` (heading `Left` at `x = 0`). -/
theorem clamp_to_zero_inactivates_witness :
    (Turmite.tick_pos Turmite.leftEdge).is_active = false :=
  (clamp_to_zero_inactivates Turmite.leftEdge rfl
    (Or.inl ⟨rfl, rfl⟩)).2.2.2.1

/-- Claim C8 counterexample: on the clamping (inactivating) tick of
`clamp0`, the turmite ends at the clamped position `(0, 0)` inactive, and
the only draw emitted is the cell fill in the empty color — no draw with
the agent-marker color is issued on that tick. -/
theorem inactivating_tick_no_agent_draw_cex :
    ((Turmite.tick Turmite.clamp0).map fun p =>
        (p.1.x, p.1.y, p.1.is_active, p.2.map Draw.color)) =
      some (0, 0, false, [EMPTY_COLOR]) ∧
    EMPTY_COLOR ≠ ANT_COLOR := by
  exact ⟨by decide, by decide⟩

/-- Claim C8 (amended): on a tick that inactivates the turmite, exactly one
draw is emitted — the re-colored cell at the pre-move position — and the
agent-marker draw is skipped because the turmite is already inactive after
the move step. -/
theorem inactivating_tick_draws_cell_only :
    ∀ (t t' : Turmite) (ds : List Draw), t.is_active = true →
      Turmite.tick t = some (t', ds) → t'.is_active = false →
      ds.length = 1 ∧
      ∀ dr ∈ ds, (dr.color = FILL_COLOR ∨ dr.color = EMPTY_COLOR) ∧
        dr.color ≠ ANT_COLOR ∧
        dr.px = t.x * t.pixel_ratio ∧ dr.py = t.y * t.pixel_ratio ∧
        dr.size = t.pixel_ratio := by
  intro t t' ds ha h hd
  obtain ⟨t1, d1, h1, h2, rfl, rfl⟩ := Turmite.tick_eq_some_active ha h
  have hrs : Turmite.render_self (Turmite.tick_pos t1) = [] := by
    unfold Turmite.render_self Turmite.render
    rw [hd]
    rfl
  obtain ⟨c, hc, rfl⟩ := Option.map_eq_some'.mp h2
  obtain ⟨hx1, hy1, -, -, hact1, -, hpr1, -⟩ := Turmite.tick_state_proj h1
  have ha1 : t1.is_active = true := hact1.trans ha
  rw [hrs, List.append_nil]
  constructor
  · simp [Turmite.render, ha1]
  · intro dr hdr
    simp only [Turmite.render, ha1, if_true, List.mem_singleton] at hdr
    subst hdr
    refine ⟨?_, ?_, ?_, ?_, ?_⟩
    · cases c
      · exact Or.inr rfl
      · exact Or.inl rfl
    · cases c
      · show EMPTY_COLOR ≠ ANT_COLOR
        decide
      · show FILL_COLOR ≠ ANT_COLOR
        decide
    · rw [hx1, hpr1]
    · rw [hy1, hpr1]
    · rw [hpr1]

/-- Witness: the amended render behavior at the clamping tick of `clamp0`. -/
theorem inactivating_tick_draws_cell_only_witness :
    ([⟨EMPTY_COLOR, 0, 0, 1⟩] : List Draw).length = 1 :=
  (inactivating_tick_draws_cell_only Turmite.clamp0 Turmite.clamp1
    [⟨EMPTY_COLOR, 0, 0, 1⟩] rfl (by decide) rfl).1

/-- Claim C5: in every reachable state, the cell-grid portion of the
`Display` dump has exactly `width * height` characters, each '0' or '1',
and the character at position `x * height + y` is the cell `(x, y)` of the
grid — the field is serialized in the order of its outer (`x`) index, the
order in which the source iterates its rows. -/
theorem display_grid_portion :
    ∀ (cw ch pr : Nat) (b : DecisionTable) (s c : Bool) (t0 t : Turmite),
      Turmite.new cw ch pr b s c = some t0 → Turmite.Reachable t0 t →
      Turmite.display t =
        "Turmite \x7b width: " ++ toString t.width ++ ", height: " ++
          toString t.height ++ " \x7d\n" ++ Turmite.field_string t ∧
      (Turmite.field_string t).length = t.width * t.height ∧
      (∀ a ∈ (Turmite.field_string t).data, a = '0' ∨ a = '1') ∧
      (∀ x y : Nat, x < t.width → y < t.height →
        (Turmite.field_string t).data.get? (x * t.height + y) =
          (getCell t.field x y).map fun cell => if cell then '1' else '0') := by
  intro cw ch pr b s c t0 t h0 hr
  obtain ⟨hwf, -, -⟩ := Turmite.reachable_spec h0 hr
  refine ⟨rfl, Turmite.field_chars_length hwf, ?_, ?_⟩
  · intro a ha
    exact Turmite.field_chars_mem a ha
  · intro x y hx hy
    show (Turmite.field_chars t).get? (x * t.height + y) = _
    exact Turmite.flatten_uniform_get _ t.field t.width t.height x y hwf hy

/-- Witness: the dump of the fresh 2×2 turmite `square0` has 4 characters. -/
theorem display_grid_portion_witness :
    (Turmite.field_string Turmite.square0).length =
      Turmite.square0.width * Turmite.square0.height :=
  (display_grid_portion 2 2 1 DecisionTable.fibonacci true false
    Turmite.square0 Turmite.square0 (by decide) ⟨0, rfl⟩).2.1

/-- Claim C9: for every catalog table, a turmite created with internal
state bit true and initial cell color false starts heading `Right`, its
first tick succeeds, and afterwards its internal state, the color written
at the starting cell, and its orientation (the rotation applied to the
initial `Right`) are exactly the triple stored at table index
`1*2 + 0 = 2`. -/
theorem first_tick_uses_index_two :
    ∀ tbl ∈ DecisionTable.tables, ∀ (cw ch pr : Nat) (t0 : Turmite),
      Turmite.new cw ch pr tbl true false = some t0 →
      t0.orientation = Orientation.Right ∧
      (Turmite.tick t0).isSome = true ∧
      (Turmite.tick t0).map (fun p => p.1.state) =
        (tbl.table.get? 2).map Decision.state ∧
      (Turmite.tick t0).map (fun p => p.1.orientation) =
        (tbl.table.get? 2).map
          (fun d => (Turmite.rotate t0 d.rotate).orientation) ∧
      ((Turmite.tick t0).bind fun p => getCell p.1.field t0.x t0.y) =
        (tbl.table.get? 2).map Decision.color := by
  intro tbl htbl cw ch pr t0 h0
  have base := Turmite.new_spec h0
  have hor : t0.orientation = Orientation.Right := base.2.2.2.2.1
  have hst : t0.state = true := base.2.2.2.2.2.1
  have hbv : t0.behavior = tbl := base.2.2.2.2.2.2.1
  have hact : t0.is_active = true := base.2.2.2.2.2.2.2.1
  have hc : t0.cur_color = some false := base.2.2.2.2.2.2.2.2.2.2.1
  have hlen : tbl.table.length = 4 := tables_table_length tbl htbl
  obtain ⟨d, hd⟩ : ∃ d, tbl.table.get? 2 = some d := by
    rw [List.get?_eq_get (by omega)]
    exact ⟨_, rfl⟩
  have hdec : t0.behavior.decide (if t0.state then 1 else 0)
      (if (false : Bool) then 1 else 0) = some d := by
    rw [hst, hbv]
    exact hd
  have hts : Turmite.tick_state t0 =
      Turmite.set_color (Turmite.rotate { t0 with state := d.state } d.rotate)
        d.color := by
    unfold Turmite.tick_state
    rw [hc]
    simp only [Option.some_bind]
    rw [hdec]
    simp only [Option.some_bind]
  have hcell : (Turmite.rotate { t0 with state := d.state } d.rotate).cur_color =
      some false := hc
  obtain ⟨f, hf⟩ := setCell_isSome_of_getCell d.color hcell
  have ht1 : Turmite.tick_state t0 =
      some { Turmite.rotate { t0 with state := d.state } d.rotate with
             field := f } := by
    rw [hts]
    unfold Turmite.set_color
    rw [hf]
    rfl
  have hc1 : ({ Turmite.rotate { t0 with state := d.state } d.rotate with
      field := f } : Turmite).cur_color = some d.color :=
    getCell_setCell_same hf
  have hrc : Turmite.render_cell
      { Turmite.rotate { t0 with state := d.state } d.rotate with field := f } =
      some (Turmite.render
        { Turmite.rotate { t0 with state := d.state } d.rotate with field := f }
        (if d.color then FILL_COLOR else EMPTY_COLOR)) := by
    unfold Turmite.render_cell
    rw [hc1]
    rfl
  have htk : Turmite.tick t0 =
      some (Turmite.tick_pos
          { Turmite.rotate { t0 with state := d.state } d.rotate with
            field := f },
        Turmite.render
            { Turmite.rotate { t0 with state := d.state } d.rotate with
              field := f }
            (if d.color then FILL_COLOR else EMPTY_COLOR) ++
          Turmite.render_self (Turmite.tick_pos
            { Turmite.rotate { t0 with state := d.state } d.rotate with
              field := f })) := by
    rw [Turmite.tick_eq_of_active hact, ht1]
    simp only [Option.some_bind]
    rw [hrc]
    simp only [Option.some_bind]
  obtain ⟨-, -, -, -, -, hpf, -⟩ := Turmite.tick_pos_proj
    { Turmite.rotate { t0 with state := d.state } d.rotate with field := f }
  refine ⟨hor, ?_, ?_, ?_, ?_⟩
  · rw [htk]
    rfl
  · rw [htk, hd]
    show some (Turmite.tick_pos _).state = some d.state
    rw [(Turmite.tick_pos_proj _).2.2.1]
    rfl
  · rw [htk, hd]
    show some (Turmite.tick_pos _).orientation = _
    rw [(Turmite.tick_pos_proj _).1]
    rfl
  · rw [htk, hd]
    show getCell (Turmite.tick_pos _).field t0.x t0.y = some d.color
    rw [hpf]
    exact hc1

/-- Witness: the first tick of the fresh `fibonacci` turmite `square0`
adopts the state bit stored at table index 2. -/
theorem first_tick_uses_index_two_witness :
    ((Turmite.tick Turmite.square0).map fun p => p.1.state) =
      (DecisionTable.fibonacci.table.get? 2).map Decision.state :=
  (first_tick_uses_index_two DecisionTable.fibonacci (by decide) 2 2 1
    Turmite.square0 (by decide)).2.2.1

end Ant
